import Mathlib

/-!
Verification of the gesture-classification and interaction-state engine of the
gestupp repository.

The classifier (`calculateGesture`, `processResults`) is embedded from
`useHandTracking` (src/unnamed/part_000); the per-object interaction state
machine (`advanceFrame` and its phases) is embedded from the `useFrame`
bodies of `SolarSystem` and `InteractiveModel` in
`src/components/Scene3D.tsx`.  All numeric values are modelled as exact
rationals.  The source compares Euclidean distances produced by
`Math.sqrt`; every such comparison is stated here on squared distances,
which is equivalent because both sides of each comparison are nonnegative.
-/

namespace Gestupp

/-- A tracked hand landmark (`HandLandmark` in the source): normalized
coordinates.  Only `x` and `y` are ever read by the gesture math. -/
structure Landmark where
  x : ℚ
  y : ℚ
  z : ℚ
deriving DecidableEq

/-- A detected hand: 21 landmarks with the MediaPipe index semantics
(wrist = 0, thumb tip = 4, index tip = 8, middle tip = 12, ring tip = 16,
pinky tip = 20, plus intermediate joints). -/
def Hand : Type := Fin 21 → Landmark

/-- Squared planar distance between two landmarks.  The source computes
`Math.sqrt (dx^2 + dy^2)`; all comparisons below square both sides. -/
def dist2 (a b : Landmark) : ℚ :=
  (a.x - b.x) ^ 2 + (a.y - b.y) ^ 2

/-- The source's `isFingerExtended`: the tip-to-wrist distance must
exceed 0.95 times the pip-to-wrist distance and exceed the mcp-to-wrist
distance.  Stated on squared distances (0.95 squared is 0.9025). -/
def isFingerExtended (tip pip mcp wrist : Landmark) : Bool :=
  decide (dist2 tip wrist > dist2 pip wrist * ((0.95 : ℚ) ^ 2)) &&
  decide (dist2 tip wrist > dist2 mcp wrist)

/-- The source's `isThumbExtended`: the thumb tip must be farther than
0.12 from the index-finger base joint.  Stated on squared distances.  The
parameters `thumbIp`, `thumbMcp` and `wrist` are accepted but unused,
exactly as in the source. -/
def isThumbExtended (thumbTip thumbIp thumbMcp wrist indexMcp : Landmark) : Bool :=
  decide (dist2 thumbTip indexMcp > (0.12 : ℚ) ^ 2)

/-- The source's `GestureState`: six gesture flags, the palm reference
point (absent when no hand), and the per-frame rotation / position deltas. -/
structure GestureState where
  isZoomIn : Bool
  isZoomOut : Bool
  isOpenHand : Bool
  isFist : Bool
  isPeace : Bool
  isReset : Bool
  palmPosition : Option (ℚ × ℚ)
  rotation : ℚ × ℚ
  position : ℚ × ℚ
deriving DecidableEq

/-- The source's `calculateGesture`.  The mutable ref
`prevPalmPosition.current` is threaded explicitly: the function takes its
value before the call and returns (alongside the `GestureState`) its value
after the call, which the source sets to this frame's palm position. -/
def calculateGesture (prevPalmPosition : Option (ℚ × ℚ)) (handLandmarks : Hand) :
    GestureState × Option (ℚ × ℚ) :=
  let wrist := handLandmarks 0
  let thumbTip := handLandmarks 4
  let thumbIp := handLandmarks 3
  let thumbMcp := handLandmarks 2
  let indexTip := handLandmarks 8
  let indexPip := handLandmarks 6
  let indexMcp := handLandmarks 5
  let middleTip := handLandmarks 12
  let middlePip := handLandmarks 10
  let middleMcp := handLandmarks 9
  let ringTip := handLandmarks 16
  let ringPip := handLandmarks 14
  let ringMcp := handLandmarks 13
  let pinkyTip := handLandmarks 20
  let pinkyPip := handLandmarks 18
  let pinkyMcp := handLandmarks 17
  let palmX := (wrist.x + indexMcp.x + middleMcp.x + pinkyMcp.x) / 4
  let palmY := (wrist.y + indexMcp.y + middleMcp.y + pinkyMcp.y) / 4
  let palmPosition : ℚ × ℚ := (palmX, palmY)
  let thumbExtended := isThumbExtended thumbTip thumbIp thumbMcp wrist indexMcp
  let indexExtended := isFingerExtended indexTip indexPip indexMcp wrist
  let middleExtended := isFingerExtended middleTip middlePip middleMcp wrist
  let ringExtended := isFingerExtended ringTip ringPip ringMcp wrist
  let pinkyExtended := isFingerExtended pinkyTip pinkyPip pinkyMcp wrist
  let extendedCount :=
    (List.filter (fun b => b)
      [indexExtended, middleExtended, ringExtended, pinkyExtended]).length
  let isZoomIn := thumbExtended && indexExtended && !middleExtended &&
    !ringExtended && !pinkyExtended
  let isZoomOut := !thumbExtended && indexExtended && !middleExtended &&
    !ringExtended && !pinkyExtended
  let isOpenHand := decide (extendedCount ≥ 4) && thumbExtended
  let isFist := decide (extendedCount = 0) && !thumbExtended
  let isPeace := indexExtended && middleExtended && !ringExtended &&
    !pinkyExtended && !thumbExtended
  let isReset := thumbExtended && pinkyExtended && !indexExtended &&
    !middleExtended && !ringExtended
  let rotation : ℚ × ℚ :=
    match prevPalmPosition with
    | some prev =>
        if isOpenHand then
          let deltaX := (palmPosition.1 - prev.1) * 3
          let deltaY := (palmPosition.2 - prev.2) * 3
          (deltaY, -deltaX)
        else (0, 0)
    | none => (0, 0)
  let position : ℚ × ℚ :=
    match prevPalmPosition with
    | some prev =>
        if isPeace then
          let deltaX := (palmPosition.1 - prev.1) * 5
          let deltaY := (palmPosition.2 - prev.2) * 5
          (-deltaX, -deltaY)
        else (0, 0)
    | none => (0, 0)
  ({ isZoomIn := isZoomIn
     isZoomOut := isZoomOut
     isOpenHand := isOpenHand
     isFist := isFist
     isPeace := isPeace
     isReset := isReset
     palmPosition := some palmPosition
     rotation := rotation
     position := position },
   some palmPosition)

/-- The all-clear `GestureState` that `processResults` stores when no hand
is detected (the object literal in the `else` branch of the source). -/
def clearedGesture : GestureState :=
  { isZoomIn := false
    isZoomOut := false
    isOpenHand := false
    isFist := false
    isPeace := false
    isReset := false
    palmPosition := none
    rotation := (0, 0)
    position := (0, 0) }

/-- The per-hook mutable state read and written by `processResults`:
the published landmarks and gesture, and the previous palm position ref. -/
structure TrackingState where
  landmarks : Option Hand
  gesture : GestureState
  prevPalmPosition : Option (ℚ × ℚ)

/-- The source's `processResults`, on the state it reads and writes.
The detector yields at most one hand (`numHands: 1`), modelled as an
`Option Hand`.  When a hand is present the gesture is recomputed and the
previous palm position updated; when absent, landmarks are cleared, the
gesture is reset to `clearedGesture`, and the previous palm position ref
is not touched. -/
def processResults (s : TrackingState) (results : Option Hand) : TrackingState :=
  match results with
  | some handLandmarks =>
      let r := calculateGesture s.prevPalmPosition handLandmarks
      { landmarks := some handLandmarks, gesture := r.1, prevPalmPosition := r.2 }
  | none =>
      { landmarks := none, gesture := clearedGesture,
        prevPalmPosition := s.prevPalmPosition }

/-- Thumb extension flag of a hand, as `calculateGesture` computes it. -/
def thumbExtendedOf (hand : Hand) : Bool :=
  isThumbExtended (hand 4) (hand 3) (hand 2) (hand 0) (hand 5)

/-- Index-finger extension flag of a hand, as `calculateGesture` computes it. -/
def indexExtendedOf (hand : Hand) : Bool :=
  isFingerExtended (hand 8) (hand 6) (hand 5) (hand 0)

/-- Middle-finger extension flag of a hand, as `calculateGesture` computes it. -/
def middleExtendedOf (hand : Hand) : Bool :=
  isFingerExtended (hand 12) (hand 10) (hand 9) (hand 0)

/-- Ring-finger extension flag of a hand, as `calculateGesture` computes it. -/
def ringExtendedOf (hand : Hand) : Bool :=
  isFingerExtended (hand 16) (hand 14) (hand 13) (hand 0)

/-- Pinky-finger extension flag of a hand, as `calculateGesture` computes it. -/
def pinkyExtendedOf (hand : Hand) : Bool :=
  isFingerExtended (hand 20) (hand 18) (hand 17) (hand 0)

/-- Number of extended non-thumb fingers, as `calculateGesture` computes it. -/
def extendedCountOf (hand : Hand) : Nat :=
  (List.filter (fun b => b)
    [indexExtendedOf hand, middleExtendedOf hand,
     ringExtendedOf hand, pinkyExtendedOf hand]).length

/-- The palm reference point `calculateGesture` computes: the mean of the
wrist and the index, middle and pinky MCPs (landmarks 0, 5, 9, 17). -/
def palmOf (hand : Hand) : ℚ × ℚ :=
  (((hand 0).x + (hand 5).x + (hand 9).x + (hand 17).x) / 4,
   ((hand 0).y + (hand 5).y + (hand 9).y + (hand 17).y) / 4)

/-- The palm reference point as the spec words it: the arithmetic mean of
five points, the wrist plus the four finger base joints (landmarks 0, 5,
9, 13, 17).  Kept only to compare against what the source computes. -/
def palmSpecFivePoint (hand : Hand) : ℚ × ℚ :=
  (((hand 0).x + (hand 5).x + (hand 9).x + (hand 13).x + (hand 17).x) / 5,
   ((hand 0).y + (hand 5).y + (hand 9).y + (hand 13).y + (hand 17).y) / 5)

theorem calc_isZoomIn (prev : Option (ℚ × ℚ)) (hand : Hand) :
    (calculateGesture prev hand).1.isZoomIn =
      (thumbExtendedOf hand && indexExtendedOf hand && !middleExtendedOf hand &&
       !ringExtendedOf hand && !pinkyExtendedOf hand) := rfl

theorem calc_isZoomOut (prev : Option (ℚ × ℚ)) (hand : Hand) :
    (calculateGesture prev hand).1.isZoomOut =
      (!thumbExtendedOf hand && indexExtendedOf hand && !middleExtendedOf hand &&
       !ringExtendedOf hand && !pinkyExtendedOf hand) := rfl

theorem calc_isOpenHand (prev : Option (ℚ × ℚ)) (hand : Hand) :
    (calculateGesture prev hand).1.isOpenHand =
      (decide (extendedCountOf hand ≥ 4) && thumbExtendedOf hand) := rfl

theorem calc_isFist (prev : Option (ℚ × ℚ)) (hand : Hand) :
    (calculateGesture prev hand).1.isFist =
      (decide (extendedCountOf hand = 0) && !thumbExtendedOf hand) := rfl

theorem calc_isPeace (prev : Option (ℚ × ℚ)) (hand : Hand) :
    (calculateGesture prev hand).1.isPeace =
      (indexExtendedOf hand && middleExtendedOf hand && !ringExtendedOf hand &&
       !pinkyExtendedOf hand && !thumbExtendedOf hand) := rfl

theorem calc_isReset (prev : Option (ℚ × ℚ)) (hand : Hand) :
    (calculateGesture prev hand).1.isReset =
      (thumbExtendedOf hand && pinkyExtendedOf hand && !indexExtendedOf hand &&
       !middleExtendedOf hand && !ringExtendedOf hand) := rfl

theorem calc_palmPosition (prev : Option (ℚ × ℚ)) (hand : Hand) :
    (calculateGesture prev hand).1.palmPosition = some (palmOf hand) := rfl

theorem calc_rotation_some (p : ℚ × ℚ) (hand : Hand) :
    (calculateGesture (some p) hand).1.rotation =
      (if (decide (extendedCountOf hand ≥ 4) && thumbExtendedOf hand) = true then
        (((palmOf hand).2 - p.2) * 3, -(((palmOf hand).1 - p.1) * 3))
      else (0, 0)) := rfl

theorem calc_rotation_none (hand : Hand) :
    (calculateGesture none hand).1.rotation = (0, 0) := rfl

/-! ## The per-object interaction state machine

Each controllable object in `Scene3D.tsx` keeps the refs `targetRotation`,
`targetPosition`, `targetScale`, `isFrozen`, plus the rendered (smoothed)
rotation, position and scale of its group.  Its `useFrame` body is the
sequential composition of four phases, modelled one def per contiguous
block of source statements.  `SolarSystem` smooths `rotation.x` toward
`targetRotation.x + 0.2` and clamps `targetScale` below at 0.2; the other
models use no rotation offset and clamp at 0.3; both are instances of
`advanceFrame` with the two constants as parameters. -/

/-- The per-object state: the freeze flag, the three target accumulators
and the three rendered (smoothed) current values. -/
structure ModelState where
  isFrozen : Bool
  targetRotation : ℚ × ℚ
  targetPosition : ℚ × ℚ
  targetScale : ℚ
  currentRotation : ℚ × ℚ
  currentPosition : ℚ × ℚ
  currentScale : ℚ
deriving DecidableEq

/-- Linear interpolation, `THREE.MathUtils.lerp`. -/
def lerp (x y t : ℚ) : ℚ := x + (y - x) * t

/-- Freeze bookkeeping: a fist freezes; any of the five non-fist gestures
on a fist-free frame unfreezes. -/
def applyFreeze (gesture : GestureState) (s : ModelState) : ModelState :=
  let s1 := if gesture.isFist && !s.isFrozen then { s with isFrozen := true } else s
  if !gesture.isFist && (gesture.isOpenHand || gesture.isZoomIn || gesture.isZoomOut ||
      gesture.isPeace || gesture.isReset) then
    { s1 with isFrozen := false }
  else s1

/-- Reset: zero the rotation and position targets, set the scale target to
1 and unfreeze. -/
def applyReset (gesture : GestureState) (s : ModelState) : ModelState :=
  if gesture.isReset then
    { s with targetRotation := (0, 0), targetPosition := (0, 0),
             targetScale := 1, isFrozen := false }
  else s

/-- Open hand: accumulate the rotation delta into the rotation target. -/
def applyRotationAccum (gesture : GestureState) (s : ModelState) : ModelState :=
  if gesture.isOpenHand then
    { s with targetRotation := (s.targetRotation.1 + gesture.rotation.1,
                                s.targetRotation.2 + gesture.rotation.2) }
  else s

/-- Peace: accumulate the position delta into the position target, then
clamp x to [-3, 3] and y to [-2, 2]. -/
def applyPositionAccum (gesture : GestureState) (s : ModelState) : ModelState :=
  if gesture.isPeace then
    { s with targetPosition :=
        (max (-3) (min 3 (s.targetPosition.1 + gesture.position.1)),
         max (-2) (min 2 (s.targetPosition.2 + gesture.position.2))) }
  else s

/-- Zoom in: raise the scale target by 0.02, capped at 3. -/
def applyZoomIn (gesture : GestureState) (s : ModelState) : ModelState :=
  if gesture.isZoomIn then { s with targetScale := min 3 (s.targetScale + 0.02) }
  else s

/-- Zoom out: lower the scale target by 0.02, floored at `scaleMin`. -/
def applyZoomOut (scaleMin : ℚ) (gesture : GestureState) (s : ModelState) : ModelState :=
  if gesture.isZoomOut then { s with targetScale := max scaleMin (s.targetScale - 0.02) }
  else s

/-- The accumulator block, guarded by the freeze flag. -/
def applyAccumulators (scaleMin : ℚ) (gesture : GestureState) (s : ModelState) : ModelState :=
  if !s.isFrozen then
    applyZoomOut scaleMin gesture (applyZoomIn gesture
      (applyPositionAccum gesture (applyRotationAccum gesture s)))
  else s

/-- The smoothing block: each rendered value moves toward its target by
lerp, factor 0.15 for rotation and position and 0.1 for scale.  The x
rotation is smoothed toward `targetRotation.x + rotXOff` (`rotXOff` is 0.2
for the solar system and 0 for the other models). -/
def applySmoothing (rotXOff : ℚ) (s : ModelState) : ModelState :=
  { s with
    currentRotation := (lerp s.currentRotation.1 (s.targetRotation.1 + rotXOff) 0.15,
                        lerp s.currentRotation.2 s.targetRotation.2 0.15)
    currentPosition := (lerp s.currentPosition.1 s.targetPosition.1 0.15,
                        lerp s.currentPosition.2 s.targetPosition.2 0.15)
    currentScale := lerp s.currentScale s.targetScale 0.1 }

/-- One `useFrame` tick of a controlled object. -/
def advanceFrame (rotXOff scaleMin : ℚ) (gesture : GestureState) (s : ModelState) :
    ModelState :=
  applySmoothing rotXOff
    (applyAccumulators scaleMin gesture (applyReset gesture (applyFreeze gesture s)))

/-- The `SolarSystem` instance: scale floor 0.2, rotation-x offset 0.2. -/
def solarAdvance : GestureState → ModelState → ModelState := advanceFrame 0.2 0.2

/-- The `InteractiveModel` (and car / chair) instance: scale floor 0.3, no
rotation offset. -/
def interactiveAdvance : GestureState → ModelState → ModelState := advanceFrame 0 0.3

/-! ## Elementary facts about the state-machine phases -/

theorem applySmoothing_isFrozen (rotXOff : ℚ) (s : ModelState) :
    (applySmoothing rotXOff s).isFrozen = s.isFrozen := rfl

theorem advanceFrame_targetRotation (rotXOff scaleMin : ℚ) (g : GestureState) (s : ModelState) :
    (advanceFrame rotXOff scaleMin g s).targetRotation =
      (applyAccumulators scaleMin g (applyReset g (applyFreeze g s))).targetRotation := rfl

theorem advanceFrame_targetPosition (rotXOff scaleMin : ℚ) (g : GestureState) (s : ModelState) :
    (advanceFrame rotXOff scaleMin g s).targetPosition =
      (applyAccumulators scaleMin g (applyReset g (applyFreeze g s))).targetPosition := rfl

theorem advanceFrame_targetScale (rotXOff scaleMin : ℚ) (g : GestureState) (s : ModelState) :
    (advanceFrame rotXOff scaleMin g s).targetScale =
      (applyAccumulators scaleMin g (applyReset g (applyFreeze g s))).targetScale := rfl

theorem applyFreeze_targetRotation (g : GestureState) (s : ModelState) :
    (applyFreeze g s).targetRotation = s.targetRotation := by
  simp only [applyFreeze]; split_ifs <;> rfl

theorem applyFreeze_targetPosition (g : GestureState) (s : ModelState) :
    (applyFreeze g s).targetPosition = s.targetPosition := by
  simp only [applyFreeze]; split_ifs <;> rfl

theorem applyFreeze_targetScale (g : GestureState) (s : ModelState) :
    (applyFreeze g s).targetScale = s.targetScale := by
  simp only [applyFreeze]; split_ifs <;> rfl

theorem applyFreeze_currentRotation (g : GestureState) (s : ModelState) :
    (applyFreeze g s).currentRotation = s.currentRotation := by
  simp only [applyFreeze]; split_ifs <;> rfl

theorem applyFreeze_currentPosition (g : GestureState) (s : ModelState) :
    (applyFreeze g s).currentPosition = s.currentPosition := by
  simp only [applyFreeze]; split_ifs <;> rfl

theorem applyFreeze_currentScale (g : GestureState) (s : ModelState) :
    (applyFreeze g s).currentScale = s.currentScale := by
  simp only [applyFreeze]; split_ifs <;> rfl

theorem applyFreeze_fist (g : GestureState) (s : ModelState) (hf : g.isFist = true) :
    (applyFreeze g s).isFrozen = true := by
  cases h : s.isFrozen <;> simp [applyFreeze, hf, h]

theorem applyFreeze_unfreeze (g : GestureState) (s : ModelState) (hf : g.isFist = false)
    (hd : (g.isOpenHand || g.isZoomIn || g.isZoomOut || g.isPeace || g.isReset) = true) :
    (applyFreeze g s).isFrozen = false := by
  simp [applyFreeze, hf, hd]

theorem applyFreeze_no_freeze (g : GestureState) (s : ModelState) (hf : g.isFist = false)
    (hs : s.isFrozen = false) : (applyFreeze g s).isFrozen = false := by
  cases hd : (g.isOpenHand || g.isZoomIn || g.isZoomOut || g.isPeace || g.isReset) with
  | false => simp [applyFreeze, hf, hd, hs]
  | true => exact applyFreeze_unfreeze g s hf hd

theorem applyReset_of_true (g : GestureState) (s : ModelState) (h : g.isReset = true) :
    applyReset g s =
      { s with targetRotation := (0, 0), targetPosition := (0, 0),
               targetScale := 1, isFrozen := false } := by
  simp [applyReset, h]

theorem applyReset_of_false (g : GestureState) (s : ModelState) (h : g.isReset = false) :
    applyReset g s = s := by
  simp [applyReset, h]

theorem applyReset_isFrozen_mono (g : GestureState) (s : ModelState)
    (h : s.isFrozen = false) : (applyReset g s).isFrozen = false := by
  simp only [applyReset]; split_ifs <;> simp [h]

theorem applyReset_currentRotation (g : GestureState) (s : ModelState) :
    (applyReset g s).currentRotation = s.currentRotation := by
  simp only [applyReset]; split_ifs <;> rfl

theorem applyReset_currentPosition (g : GestureState) (s : ModelState) :
    (applyReset g s).currentPosition = s.currentPosition := by
  simp only [applyReset]; split_ifs <;> rfl

theorem applyReset_currentScale (g : GestureState) (s : ModelState) :
    (applyReset g s).currentScale = s.currentScale := by
  simp only [applyReset]; split_ifs <;> rfl

theorem applyRotationAccum_of_true (g : GestureState) (s : ModelState)
    (h : g.isOpenHand = true) :
    applyRotationAccum g s =
      { s with targetRotation := (s.targetRotation.1 + g.rotation.1,
                                  s.targetRotation.2 + g.rotation.2) } := by
  simp [applyRotationAccum, h]

theorem applyRotationAccum_of_false (g : GestureState) (s : ModelState)
    (h : g.isOpenHand = false) : applyRotationAccum g s = s := by
  simp [applyRotationAccum, h]

theorem applyRotationAccum_targetPosition (g : GestureState) (s : ModelState) :
    (applyRotationAccum g s).targetPosition = s.targetPosition := by
  simp only [applyRotationAccum]; split_ifs <;> rfl

theorem applyRotationAccum_targetScale (g : GestureState) (s : ModelState) :
    (applyRotationAccum g s).targetScale = s.targetScale := by
  simp only [applyRotationAccum]; split_ifs <;> rfl

theorem applyPositionAccum_of_true (g : GestureState) (s : ModelState)
    (h : g.isPeace = true) :
    applyPositionAccum g s =
      { s with targetPosition :=
          (max (-3) (min 3 (s.targetPosition.1 + g.position.1)),
           max (-2) (min 2 (s.targetPosition.2 + g.position.2))) } := by
  simp [applyPositionAccum, h]

theorem applyPositionAccum_of_false (g : GestureState) (s : ModelState)
    (h : g.isPeace = false) : applyPositionAccum g s = s := by
  simp [applyPositionAccum, h]

theorem applyPositionAccum_targetRotation (g : GestureState) (s : ModelState) :
    (applyPositionAccum g s).targetRotation = s.targetRotation := by
  simp only [applyPositionAccum]; split_ifs <;> rfl

theorem applyPositionAccum_targetScale (g : GestureState) (s : ModelState) :
    (applyPositionAccum g s).targetScale = s.targetScale := by
  simp only [applyPositionAccum]; split_ifs <;> rfl

theorem applyZoomIn_of_true (g : GestureState) (s : ModelState) (h : g.isZoomIn = true) :
    applyZoomIn g s = { s with targetScale := min 3 (s.targetScale + 0.02) } := by
  simp [applyZoomIn, h]

theorem applyZoomIn_of_false (g : GestureState) (s : ModelState) (h : g.isZoomIn = false) :
    applyZoomIn g s = s := by
  simp [applyZoomIn, h]

theorem applyZoomIn_targetPosition (g : GestureState) (s : ModelState) :
    (applyZoomIn g s).targetPosition = s.targetPosition := by
  simp only [applyZoomIn]; split_ifs <;> rfl

theorem applyZoomIn_targetRotation (g : GestureState) (s : ModelState) :
    (applyZoomIn g s).targetRotation = s.targetRotation := by
  simp only [applyZoomIn]; split_ifs <;> rfl

theorem applyZoomOut_of_true (scaleMin : ℚ) (g : GestureState) (s : ModelState)
    (h : g.isZoomOut = true) :
    applyZoomOut scaleMin g s =
      { s with targetScale := max scaleMin (s.targetScale - 0.02) } := by
  simp [applyZoomOut, h]

theorem applyZoomOut_of_false (scaleMin : ℚ) (g : GestureState) (s : ModelState)
    (h : g.isZoomOut = false) : applyZoomOut scaleMin g s = s := by
  simp [applyZoomOut, h]

theorem applyZoomOut_targetPosition (scaleMin : ℚ) (g : GestureState) (s : ModelState) :
    (applyZoomOut scaleMin g s).targetPosition = s.targetPosition := by
  simp only [applyZoomOut]; split_ifs <;> rfl

theorem applyZoomOut_targetRotation (scaleMin : ℚ) (g : GestureState) (s : ModelState) :
    (applyZoomOut scaleMin g s).targetRotation = s.targetRotation := by
  simp only [applyZoomOut]; split_ifs <;> rfl

theorem applyAccumulators_isFrozen (scaleMin : ℚ) (g : GestureState) (s : ModelState) :
    (applyAccumulators scaleMin g s).isFrozen = s.isFrozen := by
  simp only [applyAccumulators, applyZoomOut, applyZoomIn, applyPositionAccum,
    applyRotationAccum]
  split_ifs <;> rfl

theorem applyAccumulators_currentRotation (scaleMin : ℚ) (g : GestureState) (s : ModelState) :
    (applyAccumulators scaleMin g s).currentRotation = s.currentRotation := by
  simp only [applyAccumulators, applyZoomOut, applyZoomIn, applyPositionAccum,
    applyRotationAccum]
  split_ifs <;> rfl

theorem applyAccumulators_currentPosition (scaleMin : ℚ) (g : GestureState) (s : ModelState) :
    (applyAccumulators scaleMin g s).currentPosition = s.currentPosition := by
  simp only [applyAccumulators, applyZoomOut, applyZoomIn, applyPositionAccum,
    applyRotationAccum]
  split_ifs <;> rfl

theorem applyAccumulators_currentScale (scaleMin : ℚ) (g : GestureState) (s : ModelState) :
    (applyAccumulators scaleMin g s).currentScale = s.currentScale := by
  simp only [applyAccumulators, applyZoomOut, applyZoomIn, applyPositionAccum,
    applyRotationAccum]
  split_ifs <;> rfl

theorem advanceFrame_isFrozen (rotXOff scaleMin : ℚ) (g : GestureState) (s : ModelState) :
    (advanceFrame rotXOff scaleMin g s).isFrozen =
      (applyReset g (applyFreeze g s)).isFrozen := by
  rw [advanceFrame, applySmoothing_isFrozen, applyAccumulators_isFrozen]

theorem applyAccumulators_of_frozen (scaleMin : ℚ) (g : GestureState) (s : ModelState)
    (h : s.isFrozen = true) : applyAccumulators scaleMin g s = s := by
  simp [applyAccumulators, h]

theorem applyAccumulators_of_active (scaleMin : ℚ) (g : GestureState) (s : ModelState)
    (h : s.isFrozen = false) :
    applyAccumulators scaleMin g s =
      applyZoomOut scaleMin g (applyZoomIn g
        (applyPositionAccum g (applyRotationAccum g s))) := by
  simp [applyAccumulators, h]

theorem applyAccumulators_no_flags (scaleMin : ℚ) (g : GestureState) (s : ModelState)
    (h1 : g.isOpenHand = false) (h2 : g.isPeace = false)
    (h3 : g.isZoomIn = false) (h4 : g.isZoomOut = false) :
    applyAccumulators scaleMin g s = s := by
  simp [applyAccumulators, applyZoomOut, applyZoomIn, applyPositionAccum,
    applyRotationAccum, h1, h2, h3, h4]

/-- The smoothed values of a frame, expressed over the frame's initial
current values and its final (post-update) targets. -/
theorem advance_currents (rotXOff scaleMin : ℚ) (g : GestureState) (s : ModelState) :
    (advanceFrame rotXOff scaleMin g s).currentRotation =
      (lerp s.currentRotation.1
        ((advanceFrame rotXOff scaleMin g s).targetRotation.1 + rotXOff) 0.15,
       lerp s.currentRotation.2 (advanceFrame rotXOff scaleMin g s).targetRotation.2 0.15) ∧
    (advanceFrame rotXOff scaleMin g s).currentPosition =
      (lerp s.currentPosition.1 (advanceFrame rotXOff scaleMin g s).targetPosition.1 0.15,
       lerp s.currentPosition.2 (advanceFrame rotXOff scaleMin g s).targetPosition.2 0.15) ∧
    (advanceFrame rotXOff scaleMin g s).currentScale =
      lerp s.currentScale (advanceFrame rotXOff scaleMin g s).targetScale 0.1 := by
  have hcr : (applyAccumulators scaleMin g (applyReset g (applyFreeze g s))).currentRotation =
      s.currentRotation := by
    rw [applyAccumulators_currentRotation, applyReset_currentRotation,
      applyFreeze_currentRotation]
  have hcp : (applyAccumulators scaleMin g (applyReset g (applyFreeze g s))).currentPosition =
      s.currentPosition := by
    rw [applyAccumulators_currentPosition, applyReset_currentPosition,
      applyFreeze_currentPosition]
  have hcs : (applyAccumulators scaleMin g (applyReset g (applyFreeze g s))).currentScale =
      s.currentScale := by
    rw [applyAccumulators_currentScale, applyReset_currentScale, applyFreeze_currentScale]
  refine ⟨?_, ?_, ?_⟩
  · rw [← hcr]; rfl
  · rw [← hcp]; rfl
  · rw [← hcs]; rfl

/-- Lerp with a factor in [0, 1] does not move the moving value past its
target: the distance to the target never grows. -/
theorem lerp_abs_sub_le (a b t : ℚ) (h0 : 0 ≤ t) (h1 : t ≤ 1) :
    |lerp a b t - b| ≤ |a - b| := by
  have hrw : lerp a b t - b = (a - b) * (1 - t) := by rw [lerp]; ring
  rw [hrw, abs_mul]
  calc |a - b| * |1 - t| ≤ |a - b| * 1 := by
        refine mul_le_mul_of_nonneg_left ?_ (abs_nonneg _)
        rw [abs_of_nonneg (by linarith)]
        linarith
    _ = |a - b| := mul_one _

/-! ## Concrete inputs used by witnesses and counterexamples -/

/-- A concrete open hand: all four fingers extended, thumb abducted, palm
reference point (0.45, 0.42).  Unused landmark slots are the origin. -/
def openHand45 : Hand := fun i =>
  match i.val with
  | 0 => ⟨0.45, 0.62, 0⟩
  | 2 => ⟨0.3, 0.5, 0⟩
  | 3 => ⟨0.25, 0.45, 0⟩
  | 4 => ⟨0.2, 0.4, 0⟩
  | 5 => ⟨0.4, 0.4, 0⟩
  | 6 => ⟨0.4, 0.3, 0⟩
  | 8 => ⟨0.4, 0.2, 0⟩
  | 9 => ⟨0.45, 0.38, 0⟩
  | 10 => ⟨0.45, 0.28, 0⟩
  | 12 => ⟨0.45, 0.18, 0⟩
  | 13 => ⟨0.5, 0.39, 0⟩
  | 14 => ⟨0.5, 0.29, 0⟩
  | 16 => ⟨0.5, 0.19, 0⟩
  | 17 => ⟨0.5, 0.28, 0⟩
  | 18 => ⟨0.5, 0.18, 0⟩
  | 20 => ⟨0.5, 0.08, 0⟩
  | _ => ⟨0, 0, 0⟩

/-- A hand whose only nonzero landmark is 13 (the ring MCP): it separates
the four-point mean the code computes from the five-point mean of the spec. -/
def ringHand : Hand := fun i =>
  if i.val = 13 then ⟨1, 1, 0⟩ else ⟨0, 0, 0⟩

theorem openHand45_lm0 : openHand45 0 = ⟨0.45, 0.62, 0⟩ := rfl
theorem openHand45_lm2 : openHand45 2 = ⟨0.3, 0.5, 0⟩ := rfl
theorem openHand45_lm3 : openHand45 3 = ⟨0.25, 0.45, 0⟩ := rfl
theorem openHand45_lm4 : openHand45 4 = ⟨0.2, 0.4, 0⟩ := rfl
theorem openHand45_lm5 : openHand45 5 = ⟨0.4, 0.4, 0⟩ := rfl
theorem openHand45_lm6 : openHand45 6 = ⟨0.4, 0.3, 0⟩ := rfl
theorem openHand45_lm8 : openHand45 8 = ⟨0.4, 0.2, 0⟩ := rfl
theorem openHand45_lm9 : openHand45 9 = ⟨0.45, 0.38, 0⟩ := rfl
theorem openHand45_lm10 : openHand45 10 = ⟨0.45, 0.28, 0⟩ := rfl
theorem openHand45_lm12 : openHand45 12 = ⟨0.45, 0.18, 0⟩ := rfl
theorem openHand45_lm13 : openHand45 13 = ⟨0.5, 0.39, 0⟩ := rfl
theorem openHand45_lm14 : openHand45 14 = ⟨0.5, 0.29, 0⟩ := rfl
theorem openHand45_lm16 : openHand45 16 = ⟨0.5, 0.19, 0⟩ := rfl
theorem openHand45_lm17 : openHand45 17 = ⟨0.5, 0.28, 0⟩ := rfl
theorem openHand45_lm18 : openHand45 18 = ⟨0.5, 0.18, 0⟩ := rfl
theorem openHand45_lm20 : openHand45 20 = ⟨0.5, 0.08, 0⟩ := rfl

theorem openHand45_index :
    isFingerExtended (openHand45 8) (openHand45 6) (openHand45 5) (openHand45 0) = true := by
  simp only [isFingerExtended, dist2, openHand45_lm8, openHand45_lm6, openHand45_lm5,
    openHand45_lm0, Bool.and_eq_true, decide_eq_true_eq]
  norm_num

theorem openHand45_middle :
    isFingerExtended (openHand45 12) (openHand45 10) (openHand45 9) (openHand45 0) = true := by
  simp only [isFingerExtended, dist2, openHand45_lm12, openHand45_lm10, openHand45_lm9,
    openHand45_lm0, Bool.and_eq_true, decide_eq_true_eq]
  norm_num

theorem openHand45_ring :
    isFingerExtended (openHand45 16) (openHand45 14) (openHand45 13) (openHand45 0) = true := by
  simp only [isFingerExtended, dist2, openHand45_lm16, openHand45_lm14, openHand45_lm13,
    openHand45_lm0, Bool.and_eq_true, decide_eq_true_eq]
  norm_num

theorem openHand45_pinky :
    isFingerExtended (openHand45 20) (openHand45 18) (openHand45 17) (openHand45 0) = true := by
  simp only [isFingerExtended, dist2, openHand45_lm20, openHand45_lm18, openHand45_lm17,
    openHand45_lm0, Bool.and_eq_true, decide_eq_true_eq]
  norm_num

theorem openHand45_thumb :
    isThumbExtended (openHand45 4) (openHand45 3) (openHand45 2) (openHand45 0)
      (openHand45 5) = true := by
  simp only [isThumbExtended, dist2, openHand45_lm4, openHand45_lm5, decide_eq_true_eq]
  norm_num

theorem openHand45_count : extendedCountOf openHand45 = 4 := by
  unfold extendedCountOf
  rw [show indexExtendedOf openHand45 = true from openHand45_index,
      show middleExtendedOf openHand45 = true from openHand45_middle,
      show ringExtendedOf openHand45 = true from openHand45_ring,
      show pinkyExtendedOf openHand45 = true from openHand45_pinky]
  rfl

theorem openHand45_openFlag :
    (decide (extendedCountOf openHand45 ≥ 4) && thumbExtendedOf openHand45) = true := by
  rw [openHand45_count, show thumbExtendedOf openHand45 = true from openHand45_thumb]
  rfl

theorem palmOf_openHand45 : palmOf openHand45 = (0.45, 0.42) := by
  simp only [palmOf, openHand45_lm0, openHand45_lm5, openHand45_lm9, openHand45_lm17]
  norm_num

theorem ringHand_lm0 : ringHand 0 = ⟨0, 0, 0⟩ := rfl
theorem ringHand_lm5 : ringHand 5 = ⟨0, 0, 0⟩ := rfl
theorem ringHand_lm9 : ringHand 9 = ⟨0, 0, 0⟩ := rfl
theorem ringHand_lm13 : ringHand 13 = ⟨1, 1, 0⟩ := rfl
theorem ringHand_lm17 : ringHand 17 = ⟨0, 0, 0⟩ := rfl

theorem palmOf_ringHand : palmOf ringHand = (0, 0) := by
  simp only [palmOf, ringHand_lm0, ringHand_lm5, ringHand_lm9, ringHand_lm17]
  norm_num

theorem fivePoint_ringHand : palmSpecFivePoint ringHand = (0.2, 0.2) := by
  simp only [palmSpecFivePoint, ringHand_lm0, ringHand_lm5, ringHand_lm9, ringHand_lm13,
    ringHand_lm17]
  norm_num

/-! ## C1: palm reference point -/

/-- C1 (counterexample): the claim says `palmPosition` is the mean of five
points (wrist plus the four MCPs).  On the hand whose only nonzero
landmark is the ring MCP, `calculateGesture` returns `some (0, 0)` while
the five-point mean is `(0.2, 0.2)`: the ring MCP does not enter the
source's average. -/
theorem palmPosition_five_point_mean_refuted :
    (calculateGesture none ringHand).1.palmPosition ≠ some (palmSpecFivePoint ringHand) := by
  rw [calc_palmPosition, palmOf_ringHand, fivePoint_ringHand]
  intro h
  rw [Option.some_inj, Prod.ext_iff] at h
  exact absurd h.1 (by norm_num)

/-- C1 (amended): for every 21-landmark hand, `palmPosition` is the
arithmetic mean of four points — the wrist plus the index, middle and
pinky MCPs (landmarks 0, 5, 9, 17); the ring MCP is not included —
computed independently on x and y. -/
theorem palmPosition_four_point_mean (prev : Option (ℚ × ℚ)) (hand : Hand) :
    (calculateGesture prev hand).1.palmPosition =
      some ((((hand 0).x + (hand 5).x + (hand 9).x + (hand 17).x) / 4,
             ((hand 0).y + (hand 5).y + (hand 9).y + (hand 17).y) / 4)) := rfl

/-! ## C4: absent hand -/

/-- C4: when the per-frame landmark input is absent, `processResults`
publishes a gesture with all six booleans false, no palm position and zero
rotation and position deltas, clears the landmarks, and leaves the stored
previous palm position untouched, whatever the prior state was. -/
theorem absent_hand_clears_gesture (s : TrackingState) :
    (processResults s none).gesture.isZoomIn = false ∧
    (processResults s none).gesture.isZoomOut = false ∧
    (processResults s none).gesture.isOpenHand = false ∧
    (processResults s none).gesture.isFist = false ∧
    (processResults s none).gesture.isPeace = false ∧
    (processResults s none).gesture.isReset = false ∧
    (processResults s none).gesture.palmPosition = none ∧
    (processResults s none).gesture.rotation = (0, 0) ∧
    (processResults s none).gesture.position = (0, 0) ∧
    (processResults s none).landmarks = none ∧
    (processResults s none).prevPalmPosition = s.prevPalmPosition :=
  ⟨rfl, rfl, rfl, rfl, rfl, rfl, rfl, rfl, rfl, rfl, rfl⟩

/-! ## C6: mutual exclusivity of the six flags -/

theorem flags_at_most_one (t i m r p : Bool) :
    List.count true
      [t && i && !m && !r && !p,
       !t && i && !m && !r && !p,
       decide ((List.filter (fun b => b) [i, m, r, p]).length ≥ 4) && t,
       decide ((List.filter (fun b => b) [i, m, r, p]).length = 0) && !t,
       i && m && !r && !p && !t,
       t && p && !i && !m && !r] ≤ 1 := by
  cases t <;> cases i <;> cases m <;> cases r <;> cases p <;> decide

/-- C6: on every hand, at most one of the six gesture flags produced by
`calculateGesture` is true: the six defining conditions over the five
extension booleans are pairwise mutually exclusive. -/
theorem gesture_flags_mutually_exclusive (prev : Option (ℚ × ℚ)) (hand : Hand) :
    List.count true
      [(calculateGesture prev hand).1.isZoomIn,
       (calculateGesture prev hand).1.isZoomOut,
       (calculateGesture prev hand).1.isOpenHand,
       (calculateGesture prev hand).1.isFist,
       (calculateGesture prev hand).1.isPeace,
       (calculateGesture prev hand).1.isReset] ≤ 1 := by
  rw [calc_isZoomIn, calc_isZoomOut, calc_isOpenHand, calc_isFist, calc_isPeace, calc_isReset]
  exact flags_at_most_one (thumbExtendedOf hand) (indexExtendedOf hand)
    (middleExtendedOf hand) (ringExtendedOf hand) (pinkyExtendedOf hand)

/-! ## C7: rotation delta -/

/-- C7: with a previous palm position `p` and open-hand active this frame,
the rotation delta is `((palm.y − p.y) × 3, −(palm.x − p.x) × 3)`; when
open-hand is inactive or no previous palm position exists it is `(0, 0)`;
and on the concrete open hand with palm `(0.45, 0.42)` and previous palm
`(0.4, 0.4)` it is exactly `(0.06, −0.15)`. -/
theorem rotation_delta_spec :
    (∀ (p : ℚ × ℚ) (hand : Hand),
        (calculateGesture (some p) hand).1.isOpenHand = true →
        (calculateGesture (some p) hand).1.rotation =
          (((palmOf hand).2 - p.2) * 3, -(((palmOf hand).1 - p.1) * 3))) ∧
    (∀ (p : ℚ × ℚ) (hand : Hand),
        (calculateGesture (some p) hand).1.isOpenHand = false →
        (calculateGesture (some p) hand).1.rotation = (0, 0)) ∧
    (∀ hand : Hand, (calculateGesture none hand).1.rotation = (0, 0)) ∧
    (calculateGesture (some (0.4, 0.4)) openHand45).1.rotation = (0.06, -0.15) := by
  refine ⟨?_, ?_, ?_, ?_⟩
  · intro p hand h
    rw [calc_isOpenHand] at h
    rw [calc_rotation_some, if_pos h]
  · intro p hand h
    rw [calc_isOpenHand] at h
    rw [calc_rotation_some, if_neg]
    simp [h]
  · exact calc_rotation_none
  · rw [calc_rotation_some, if_pos openHand45_openFlag, palmOf_openHand45]
    norm_num

/-- C7 witness: part one of `rotation_delta_spec` applied to the concrete
open hand with previous palm `(0.4, 0.4)`. -/
theorem rotation_delta_spec_witness :
    (calculateGesture (some ((0.4 : ℚ), (0.4 : ℚ))) openHand45).1.rotation =
      (((palmOf openHand45).2 - 0.4) * 3, -(((palmOf openHand45).1 - 0.4) * 3)) :=
  rotation_delta_spec.1 (0.4, 0.4) openHand45 (by rw [calc_isOpenHand]; exact openHand45_openFlag)

/-! ## C8: full extension classifies as open hand -/

/-- C8: whenever all four non-thumb fingers pass the extension test and
the thumb passes the thumb test, `calculateGesture` reports open-hand and
no other gesture flag. -/
theorem all_fingers_extended_open_hand (prev : Option (ℚ × ℚ)) (hand : Hand)
    (hi : isFingerExtended (hand 8) (hand 6) (hand 5) (hand 0) = true)
    (hm : isFingerExtended (hand 12) (hand 10) (hand 9) (hand 0) = true)
    (hr : isFingerExtended (hand 16) (hand 14) (hand 13) (hand 0) = true)
    (hp : isFingerExtended (hand 20) (hand 18) (hand 17) (hand 0) = true)
    (ht : isThumbExtended (hand 4) (hand 3) (hand 2) (hand 0) (hand 5) = true) :
    (calculateGesture prev hand).1.isOpenHand = true ∧
    (calculateGesture prev hand).1.isZoomIn = false ∧
    (calculateGesture prev hand).1.isZoomOut = false ∧
    (calculateGesture prev hand).1.isFist = false ∧
    (calculateGesture prev hand).1.isPeace = false ∧
    (calculateGesture prev hand).1.isReset = false := by
  have hcount : extendedCountOf hand = 4 := by
    unfold extendedCountOf
    rw [show indexExtendedOf hand = true from hi, show middleExtendedOf hand = true from hm,
        show ringExtendedOf hand = true from hr, show pinkyExtendedOf hand = true from hp]
    rfl
  refine ⟨?_, ?_, ?_, ?_, ?_, ?_⟩ <;>
    simp [calc_isOpenHand, calc_isZoomIn, calc_isZoomOut, calc_isFist, calc_isPeace,
      calc_isReset, hcount, show thumbExtendedOf hand = true from ht,
      show indexExtendedOf hand = true from hi, show middleExtendedOf hand = true from hm,
      show ringExtendedOf hand = true from hr, show pinkyExtendedOf hand = true from hp]

/-- C8 witness: the theorem applied to the concrete open hand. -/
theorem all_fingers_extended_open_hand_witness :
    (calculateGesture none openHand45).1.isOpenHand = true ∧
    (calculateGesture none openHand45).1.isZoomIn = false ∧
    (calculateGesture none openHand45).1.isZoomOut = false ∧
    (calculateGesture none openHand45).1.isFist = false ∧
    (calculateGesture none openHand45).1.isPeace = false ∧
    (calculateGesture none openHand45).1.isReset = false :=
  all_fingers_extended_open_hand none openHand45 openHand45_index openHand45_middle
    openHand45_ring openHand45_pinky openHand45_thumb

/-! ## Concrete gestures and states for the state-machine claims -/

/-- Fist and open hand reported together (no classifier output does this,
but the claims quantify over all `GestureState`s). -/
def gFistOpen : GestureState := { clearedGesture with isFist := true, isOpenHand := true }

/-- Open hand alone. -/
def gOpenOnly : GestureState := { clearedGesture with isOpenHand := true }

/-- Fist alone. -/
def gFistOnly : GestureState := { clearedGesture with isFist := true }

/-- Reset and fist reported together. -/
def gResetFist : GestureState := { clearedGesture with isReset := true, isFist := true }

/-- Reset and zoom-in reported together. -/
def gResetZoomIn : GestureState := { clearedGesture with isReset := true, isZoomIn := true }

/-- Peace and fist reported together, with position delta (1, 1). -/
def gPeaceFist : GestureState :=
  { clearedGesture with isPeace := true, isFist := true, position := (1, 1) }

/-- Peace alone, with position delta (10, 10). -/
def gPeaceOnly : GestureState := { clearedGesture with isPeace := true, position := (10, 10) }

/-- Zoom-in alone. -/
def gZoomInOnly : GestureState := { clearedGesture with isZoomIn := true }

/-- The initial state of every controlled object: unfrozen, zero targets,
unit scale. -/
def sampleState : ModelState :=
  { isFrozen := false, targetRotation := (0, 0), targetPosition := (0, 0),
    targetScale := 1, currentRotation := (0, 0), currentPosition := (0, 0),
    currentScale := 1 }

/-- The initial state, frozen. -/
def frozenNeutral : ModelState := { sampleState with isFrozen := true }

/-- A frozen state with nonzero accumulators, to exercise the reset path. -/
def messyState : ModelState :=
  { isFrozen := true, targetRotation := (1, 2), targetPosition := (0.5, -1),
    targetScale := 2, currentRotation := (0.1, 0.2), currentPosition := (0.3, 0.4),
    currentScale := 0.7 }

/-! ## C2: unfreezing -/

/-- C2 (counterexample): the claim promises that any Frozen state together
with any gesture having one of the five non-fist flags true moves to
Active in one step.  With `isFist` and `isOpenHand` both true, the frame
stays Frozen: the unfreeze branch requires `isFist` to be false. -/
theorem frozen_fist_and_open_stays_frozen :
    gFistOpen.isOpenHand = true ∧ frozenNeutral.isFrozen = true ∧
    (solarAdvance gFistOpen frozenNeutral).isFrozen = true :=
  ⟨rfl, rfl, rfl⟩

/-- C2 (amended): a Frozen state together with a gesture having one of the
five non-fist flags true moves to Active in one step, provided the frame
does not also report a fist — or reports reset, which unfreezes regardless;
a frame whose only true flag is `isFist`, repeated any number of times,
never unfreezes. -/
theorem unfreeze_requires_not_fist :
    (∀ (rotXOff scaleMin : ℚ) (g : GestureState) (s : ModelState),
        s.isFrozen = true →
        (g.isOpenHand || g.isZoomIn || g.isZoomOut || g.isPeace || g.isReset) = true →
        g.isFist = false ∨ g.isReset = true →
        (advanceFrame rotXOff scaleMin g s).isFrozen = false) ∧
    (∀ (rotXOff scaleMin : ℚ) (g : GestureState) (s : ModelState) (n : ℕ),
        g.isFist = true → g.isOpenHand = false → g.isZoomIn = false →
        g.isZoomOut = false → g.isPeace = false → g.isReset = false →
        s.isFrozen = true →
        ((advanceFrame rotXOff scaleMin g)^[n] s).isFrozen = true) := by
  constructor
  · intro rotXOff scaleMin g s _ hd hor
    rw [advanceFrame_isFrozen]
    rcases hor with hf | hr
    · exact applyReset_isFrozen_mono g _ (applyFreeze_unfreeze g s hf hd)
    · rw [applyReset_of_true g _ hr]
  · intro rotXOff scaleMin g s n hf _ _ _ _ h5 hs
    induction n generalizing s with
    | zero => simpa using hs
    | succ k ih =>
        rw [Function.iterate_succ_apply]
        refine ih _ ?_
        rw [advanceFrame_isFrozen, applyReset_of_false g _ h5]
        exact applyFreeze_fist g s hf

/-- C2 witness: an open hand unfreezes the frozen neutral state in one
step, and two fist-only frames leave it frozen. -/
theorem unfreeze_requires_not_fist_witness :
    (advanceFrame 0.2 0.2 gOpenOnly frozenNeutral).isFrozen = false ∧
    ((advanceFrame 0.2 0.2 gFistOnly)^[2] frozenNeutral).isFrozen = true :=
  ⟨unfreeze_requires_not_fist.1 0.2 0.2 gOpenOnly frozenNeutral rfl rfl (Or.inl rfl),
   unfreeze_requires_not_fist.2 0.2 0.2 gFistOnly frozenNeutral 2 rfl rfl rfl rfl rfl rfl rfl⟩

/-! ## C3: reset dominance -/

/-- C3 (counterexample): the claim promises `targetScale = 1` after every
frame with `isReset = true`.  With `isReset` and `isZoomIn` both true, the
reset assignment runs first and the zoom-in update still applies on the
same frame, leaving `targetScale = 1.02`. -/
theorem reset_with_zoomIn_scale_not_one :
    gResetZoomIn.isReset = true ∧
    (solarAdvance gResetZoomIn sampleState).targetScale ≠ 1 := by
  refine ⟨rfl, ?_⟩
  have h1 : (solarAdvance gResetZoomIn sampleState).targetScale = min 3 (1 + 0.02) := by
    simp [solarAdvance, advanceFrame, applySmoothing, applyAccumulators, applyZoomOut,
      applyZoomIn, applyPositionAccum, applyRotationAccum, applyReset, applyFreeze,
      gResetZoomIn, clearedGesture, sampleState]
  rw [h1, show min (3 : ℚ) (1 + 0.02) = 1 + 0.02 from min_eq_right (by norm_num)]
  norm_num

/-- C3 (amended): a frame with `isReset = true` and none of the
accumulating flags (`isOpenHand`, `isPeace`, `isZoomIn`, `isZoomOut`)
leaves `targetRotation = (0,0)`, `targetPosition = (0,0)`,
`targetScale = 1` and the machine Active — even if the same frame also
reports `isFist = true`. -/
theorem reset_zeroes_targets_without_accum_flags
    (rotXOff scaleMin : ℚ) (g : GestureState) (s : ModelState)
    (hr : g.isReset = true) (h1 : g.isOpenHand = false) (h2 : g.isPeace = false)
    (h3 : g.isZoomIn = false) (h4 : g.isZoomOut = false) :
    (advanceFrame rotXOff scaleMin g s).targetRotation = (0, 0) ∧
    (advanceFrame rotXOff scaleMin g s).targetPosition = (0, 0) ∧
    (advanceFrame rotXOff scaleMin g s).targetScale = 1 ∧
    (advanceFrame rotXOff scaleMin g s).isFrozen = false := by
  have hacc := applyAccumulators_no_flags scaleMin g
    (applyReset g (applyFreeze g s)) h1 h2 h3 h4
  have hres := applyReset_of_true g (applyFreeze g s) hr
  refine ⟨?_, ?_, ?_, ?_⟩
  · rw [advanceFrame_targetRotation, hacc, hres]
  · rw [advanceFrame_targetPosition, hacc, hres]
  · rw [advanceFrame_targetScale, hacc, hres]
  · rw [advanceFrame_isFrozen, hres]

/-- C3 witness: a frame reporting reset and fist together, from a frozen
state with nonzero accumulators. -/
theorem reset_zeroes_targets_without_accum_flags_witness :
    (advanceFrame 0.2 0.2 gResetFist messyState).targetRotation = (0, 0) ∧
    (advanceFrame 0.2 0.2 gResetFist messyState).targetPosition = (0, 0) ∧
    (advanceFrame 0.2 0.2 gResetFist messyState).targetScale = 1 ∧
    (advanceFrame 0.2 0.2 gResetFist messyState).isFrozen = false :=
  reset_zeroes_targets_without_accum_flags 0.2 0.2 gResetFist messyState rfl rfl rfl rfl rfl

/-! ## C5: smoothing -/

/-- C5 (counterexample): the claim promises
`|current[n+1] − target| ≤ |current[n] − target|` for every controlled
model.  The solar system smooths `rotation.x` toward
`targetRotation.x + 0.2`, so from `currentRotation.x = targetRotation.x = 0`
one idle frame moves the current value to 0.03: the distance to the
last-set target grows. -/
theorem solar_tilt_distance_increases :
    ¬ (|(solarAdvance clearedGesture sampleState).currentRotation.1 -
          (solarAdvance clearedGesture sampleState).targetRotation.1| ≤
        |sampleState.currentRotation.1 - sampleState.targetRotation.1|) := by
  have h1 : (solarAdvance clearedGesture sampleState).currentRotation.1 =
      lerp 0 (0 + 0.2) 0.15 := by
    simp [solarAdvance, advanceFrame, applySmoothing, applyAccumulators, applyZoomOut,
      applyZoomIn, applyPositionAccum, applyRotationAccum, applyReset, applyFreeze,
      clearedGesture, sampleState]
  have h2 : (solarAdvance clearedGesture sampleState).targetRotation.1 = 0 := by
    simp [solarAdvance, advanceFrame, applySmoothing, applyAccumulators, applyZoomOut,
      applyZoomIn, applyPositionAccum, applyRotationAccum, applyReset, applyFreeze,
      clearedGesture, sampleState]
  rw [h1, h2, show lerp 0 (0 + 0.2) 0.15 = 0.03 from by rw [lerp]; norm_num]
  rw [show sampleState.currentRotation.1 - sampleState.targetRotation.1 = 0 from by
    norm_num [sampleState]]
  rw [sub_zero, abs_zero, abs_of_nonneg (by norm_num : (0.03 : ℚ) ≥ 0)]
  norm_num

/-- C5 (amended): on every advance frame, including while Frozen, each
current value is updated as `lerp(current, L, factor)` with factor 0.15
for rotation and position and 0.1 for scale, where `L` is the last-set
target — except the x rotation, whose lerp target is
`targetRotation.x + rotXOff` (0.2 for the solar system, 0 for the other
models); consequently the distance from the current value to its lerp
target never grows. -/
theorem smoothing_lerp_contracts (rotXOff scaleMin : ℚ) (g : GestureState) (s : ModelState) :
    ((advanceFrame rotXOff scaleMin g s).currentRotation =
      (lerp s.currentRotation.1
        ((advanceFrame rotXOff scaleMin g s).targetRotation.1 + rotXOff) 0.15,
       lerp s.currentRotation.2 (advanceFrame rotXOff scaleMin g s).targetRotation.2 0.15) ∧
     (advanceFrame rotXOff scaleMin g s).currentPosition =
      (lerp s.currentPosition.1 (advanceFrame rotXOff scaleMin g s).targetPosition.1 0.15,
       lerp s.currentPosition.2 (advanceFrame rotXOff scaleMin g s).targetPosition.2 0.15) ∧
     (advanceFrame rotXOff scaleMin g s).currentScale =
      lerp s.currentScale (advanceFrame rotXOff scaleMin g s).targetScale 0.1) ∧
    |(advanceFrame rotXOff scaleMin g s).currentRotation.1 -
       ((advanceFrame rotXOff scaleMin g s).targetRotation.1 + rotXOff)| ≤
      |s.currentRotation.1 - ((advanceFrame rotXOff scaleMin g s).targetRotation.1 + rotXOff)| ∧
    |(advanceFrame rotXOff scaleMin g s).currentRotation.2 -
       (advanceFrame rotXOff scaleMin g s).targetRotation.2| ≤
      |s.currentRotation.2 - (advanceFrame rotXOff scaleMin g s).targetRotation.2| ∧
    |(advanceFrame rotXOff scaleMin g s).currentPosition.1 -
       (advanceFrame rotXOff scaleMin g s).targetPosition.1| ≤
      |s.currentPosition.1 - (advanceFrame rotXOff scaleMin g s).targetPosition.1| ∧
    |(advanceFrame rotXOff scaleMin g s).currentPosition.2 -
       (advanceFrame rotXOff scaleMin g s).targetPosition.2| ≤
      |s.currentPosition.2 - (advanceFrame rotXOff scaleMin g s).targetPosition.2| ∧
    |(advanceFrame rotXOff scaleMin g s).currentScale -
       (advanceFrame rotXOff scaleMin g s).targetScale| ≤
      |s.currentScale - (advanceFrame rotXOff scaleMin g s).targetScale| := by
  obtain ⟨hr, hp, hs⟩ := advance_currents rotXOff scaleMin g s
  refine ⟨⟨hr, hp, hs⟩, ?_, ?_, ?_, ?_, ?_⟩
  · rw [hr]; exact lerp_abs_sub_le _ _ _ (by norm_num) (by norm_num)
  · rw [hr]; exact lerp_abs_sub_le _ _ _ (by norm_num) (by norm_num)
  · rw [hp]; exact lerp_abs_sub_le _ _ _ (by norm_num) (by norm_num)
  · rw [hp]; exact lerp_abs_sub_le _ _ _ (by norm_num) (by norm_num)
  · rw [hs]; exact lerp_abs_sub_le _ _ _ (by norm_num) (by norm_num)

/-! ## C9: peace position clamp -/

theorem clamp_x_bounds (v : ℚ) : -3 ≤ max (-3) (min 3 v) ∧ max (-3) (min 3 v) ≤ 3 :=
  ⟨le_max_left _ _, max_le (by norm_num) (min_le_left _ _)⟩

theorem clamp_y_bounds (v : ℚ) : -2 ≤ max (-2) (min 2 v) ∧ max (-2) (min 2 v) ≤ 2 :=
  ⟨le_max_left _ _, max_le (by norm_num) (min_le_left _ _)⟩

theorem applyAccumulators_targetPosition_bounds (scaleMin : ℚ) (g : GestureState)
    (s : ModelState)
    (hx1 : -3 ≤ s.targetPosition.1) (hx2 : s.targetPosition.1 ≤ 3)
    (hy1 : -2 ≤ s.targetPosition.2) (hy2 : s.targetPosition.2 ≤ 2) :
    -3 ≤ (applyAccumulators scaleMin g s).targetPosition.1 ∧
    (applyAccumulators scaleMin g s).targetPosition.1 ≤ 3 ∧
    -2 ≤ (applyAccumulators scaleMin g s).targetPosition.2 ∧
    (applyAccumulators scaleMin g s).targetPosition.2 ≤ 2 := by
  cases hfz : s.isFrozen with
  | true => rw [applyAccumulators_of_frozen _ _ _ hfz]; exact ⟨hx1, hx2, hy1, hy2⟩
  | false =>
      rw [applyAccumulators_of_active _ _ _ hfz, applyZoomOut_targetPosition,
        applyZoomIn_targetPosition]
      cases hp : g.isPeace with
      | false =>
          rw [applyPositionAccum_of_false _ _ hp, applyRotationAccum_targetPosition]
          exact ⟨hx1, hx2, hy1, hy2⟩
      | true =>
          rw [applyPositionAccum_of_true _ _ hp]
          exact ⟨(clamp_x_bounds _).1, (clamp_x_bounds _).2, (clamp_y_bounds _).1,
            (clamp_y_bounds _).2⟩

theorem resetFreeze_targetPosition_bounds (g : GestureState) (s : ModelState)
    (hx1 : -3 ≤ s.targetPosition.1) (hx2 : s.targetPosition.1 ≤ 3)
    (hy1 : -2 ≤ s.targetPosition.2) (hy2 : s.targetPosition.2 ≤ 2) :
    -3 ≤ (applyReset g (applyFreeze g s)).targetPosition.1 ∧
    (applyReset g (applyFreeze g s)).targetPosition.1 ≤ 3 ∧
    -2 ≤ (applyReset g (applyFreeze g s)).targetPosition.2 ∧
    (applyReset g (applyFreeze g s)).targetPosition.2 ≤ 2 := by
  cases hrs : g.isReset with
  | true =>
      rw [applyReset_of_true _ _ hrs]
      refine ⟨?_, ?_, ?_, ?_⟩ <;> norm_num
  | false =>
      rw [applyReset_of_false _ _ hrs, applyFreeze_targetPosition]
      exact ⟨hx1, hx2, hy1, hy2⟩

/-- C9 (counterexample): the claim promises that a peace frame on an
Active machine adds the position delta and clamps.  With `isPeace` and
`isFist` both true, the frame freezes first and the position target does
not move at all, so it differs from the clamped sum. -/
theorem peace_with_fist_position_unchanged :
    gPeaceFist.isPeace = true ∧ sampleState.isFrozen = false ∧
    (solarAdvance gPeaceFist sampleState).targetPosition ≠
      (max (-3) (min 3 (sampleState.targetPosition.1 + gPeaceFist.position.1)),
       max (-2) (min 2 (sampleState.targetPosition.2 + gPeaceFist.position.2))) := by
  refine ⟨rfl, rfl, ?_⟩
  have h1 : (solarAdvance gPeaceFist sampleState).targetPosition = (0, 0) := by
    simp [solarAdvance, advanceFrame, applySmoothing, applyAccumulators, applyZoomOut,
      applyZoomIn, applyPositionAccum, applyRotationAccum, applyReset, applyFreeze,
      gPeaceFist, clearedGesture, sampleState]
  have h2 : (max (-3 : ℚ) (min 3 (sampleState.targetPosition.1 + gPeaceFist.position.1)),
             max (-2 : ℚ) (min 2 (sampleState.targetPosition.2 + gPeaceFist.position.2))) =
      ((1 : ℚ), (1 : ℚ)) := by
    show (max (-3 : ℚ) (min 3 ((0 : ℚ) + 1)), max (-2 : ℚ) (min 2 ((0 : ℚ) + 1))) = (1, 1)
    rw [show (0 : ℚ) + 1 = 1 from by norm_num]
    rw [min_eq_right (by norm_num : (1 : ℚ) ≤ 3), min_eq_right (by norm_num : (1 : ℚ) ≤ 2),
      max_eq_right (by norm_num : (-3 : ℚ) ≤ 1), max_eq_right (by norm_num : (-2 : ℚ) ≤ 1)]
  rw [h1, h2]
  intro hcon
  rw [Prod.ext_iff] at hcon
  exact absurd hcon.1 (by norm_num)

/-- C9 (amended): when peace is active, the machine is Active, and the
frame reports neither fist nor reset, `advance` adds the position delta to
`targetPosition` and clamps x to [−3, 3] and y to [−2, 2]; every advance
step keeps an in-range `targetPosition` in range; and from any in-range
start, a peace frame with delta (+10, +10) lands exactly on (3, 2). -/
theorem peace_position_clamp :
    (∀ (rotXOff scaleMin : ℚ) (g : GestureState) (s : ModelState),
        g.isPeace = true → s.isFrozen = false → g.isFist = false → g.isReset = false →
        (advanceFrame rotXOff scaleMin g s).targetPosition =
          (max (-3) (min 3 (s.targetPosition.1 + g.position.1)),
           max (-2) (min 2 (s.targetPosition.2 + g.position.2)))) ∧
    (∀ (rotXOff scaleMin : ℚ) (g : GestureState) (s : ModelState),
        -3 ≤ s.targetPosition.1 → s.targetPosition.1 ≤ 3 →
        -2 ≤ s.targetPosition.2 → s.targetPosition.2 ≤ 2 →
        -3 ≤ (advanceFrame rotXOff scaleMin g s).targetPosition.1 ∧
        (advanceFrame rotXOff scaleMin g s).targetPosition.1 ≤ 3 ∧
        -2 ≤ (advanceFrame rotXOff scaleMin g s).targetPosition.2 ∧
        (advanceFrame rotXOff scaleMin g s).targetPosition.2 ≤ 2) ∧
    (∀ (rotXOff scaleMin : ℚ) (g : GestureState) (s : ModelState),
        g.isPeace = true → s.isFrozen = false → g.isFist = false → g.isReset = false →
        g.position = (10, 10) →
        -3 ≤ s.targetPosition.1 → s.targetPosition.1 ≤ 3 →
        -2 ≤ s.targetPosition.2 → s.targetPosition.2 ≤ 2 →
        (advanceFrame rotXOff scaleMin g s).targetPosition = (3, 2)) := by
  have hmain : ∀ (rotXOff scaleMin : ℚ) (g : GestureState) (s : ModelState),
      g.isPeace = true → s.isFrozen = false → g.isFist = false → g.isReset = false →
      (advanceFrame rotXOff scaleMin g s).targetPosition =
        (max (-3) (min 3 (s.targetPosition.1 + g.position.1)),
         max (-2) (min 2 (s.targetPosition.2 + g.position.2))) := by
    intro rotXOff scaleMin g s hp hnf hf hrs
    have hfz : (applyFreeze g s).isFrozen = false := applyFreeze_no_freeze g s hf hnf
    rw [advanceFrame_targetPosition, applyReset_of_false _ _ hrs,
      applyAccumulators_of_active _ _ _ hfz, applyZoomOut_targetPosition,
      applyZoomIn_targetPosition, applyPositionAccum_of_true _ _ hp]
    simp only [applyRotationAccum_targetPosition, applyFreeze_targetPosition]
  refine ⟨hmain, ?_, ?_⟩
  · intro rotXOff scaleMin g s hx1 hx2 hy1 hy2
    rw [advanceFrame_targetPosition]
    obtain ⟨a, b, c, d⟩ := resetFreeze_targetPosition_bounds g s hx1 hx2 hy1 hy2
    exact applyAccumulators_targetPosition_bounds scaleMin g _ a b c d
  · intro rotXOff scaleMin g s hp hnf hf hrs h10 hx1 _ hy1 _
    rw [hmain rotXOff scaleMin g s hp hnf hf hrs, h10]
    have e1 : max (-3 : ℚ) (min 3 (s.targetPosition.1 + 10)) = 3 := by
      rw [min_eq_left (by linarith), max_eq_right (by norm_num)]
    have e2 : max (-2 : ℚ) (min 2 (s.targetPosition.2 + 10)) = 2 := by
      rw [min_eq_left (by linarith), max_eq_right (by norm_num)]
    simp [e1, e2]

/-- C9 witness: the saturation part of the theorem applied to a peace
frame with delta (10, 10) from the neutral state. -/
theorem peace_position_clamp_witness :
    (advanceFrame 0 0.3 gPeaceOnly sampleState).targetPosition = (3, 2) :=
  peace_position_clamp.2.2 0 0.3 gPeaceOnly sampleState rfl rfl rfl rfl rfl
    (by norm_num [sampleState]) (by norm_num [sampleState])
    (by norm_num [sampleState]) (by norm_num [sampleState])

/-! ## C10: scale range invariant -/

theorem applyAccumulators_targetScale_bounds (scaleMin : ℚ) (g : GestureState)
    (s : ModelState) (hm3 : scaleMin ≤ 3)
    (hl : scaleMin ≤ s.targetScale) (hr : s.targetScale ≤ 3) :
    scaleMin ≤ (applyAccumulators scaleMin g s).targetScale ∧
    (applyAccumulators scaleMin g s).targetScale ≤ 3 := by
  cases hfz : s.isFrozen with
  | true => rw [applyAccumulators_of_frozen _ _ _ hfz]; exact ⟨hl, hr⟩
  | false =>
      rw [applyAccumulators_of_active _ _ _ hfz]
      have hmid : scaleMin ≤
          (applyZoomIn g (applyPositionAccum g (applyRotationAccum g s))).targetScale ∧
          (applyZoomIn g (applyPositionAccum g (applyRotationAccum g s))).targetScale ≤ 3 := by
        cases hzi : g.isZoomIn with
        | false =>
            rw [applyZoomIn_of_false _ _ hzi, applyPositionAccum_targetScale,
              applyRotationAccum_targetScale]
            exact ⟨hl, hr⟩
        | true =>
            rw [applyZoomIn_of_true _ _ hzi]
            simp only [applyPositionAccum_targetScale, applyRotationAccum_targetScale]
            exact ⟨le_min hm3 (by linarith), min_le_left _ _⟩
      cases hzo : g.isZoomOut with
      | false => rw [applyZoomOut_of_false _ _ _ hzo]; exact hmid
      | true =>
          rw [applyZoomOut_of_true _ _ _ hzo]
          exact ⟨le_max_left _ _, max_le hm3 (by linarith [hmid.2])⟩

theorem resetFreeze_targetScale_bounds (scaleMin : ℚ) (g : GestureState) (s : ModelState)
    (hm1 : scaleMin ≤ 1) (hl : scaleMin ≤ s.targetScale) (hr : s.targetScale ≤ 3) :
    scaleMin ≤ (applyReset g (applyFreeze g s)).targetScale ∧
    (applyReset g (applyFreeze g s)).targetScale ≤ 3 := by
  cases hrs : g.isReset with
  | true => rw [applyReset_of_true _ _ hrs]; exact ⟨hm1, by norm_num⟩
  | false =>
      rw [applyReset_of_false _ _ hrs, applyFreeze_targetScale]
      exact ⟨hl, hr⟩

/-- C10: `targetScale` stays in the configured range — [0.2, 3] for the
solar system, [0.3, 3] for the other models: every advance step from an
in-range value lands in range; on an Active fist-free, reset-free frame
zoom-in sets `min(3, targetScale + 0.02)` and zoom-out sets
`max(scaleMin, targetScale − 0.02)`; reset alone sets 1; and a frame with
none of reset / zoom-in / zoom-out leaves `targetScale` unchanged. -/
theorem targetScale_range_invariant :
    (∀ (rotXOff scaleMin : ℚ) (g : GestureState) (s : ModelState),
        scaleMin = 0.2 ∨ scaleMin = 0.3 →
        scaleMin ≤ s.targetScale → s.targetScale ≤ 3 →
        scaleMin ≤ (advanceFrame rotXOff scaleMin g s).targetScale ∧
        (advanceFrame rotXOff scaleMin g s).targetScale ≤ 3) ∧
    (∀ (rotXOff scaleMin : ℚ) (g : GestureState) (s : ModelState),
        s.isFrozen = false → g.isFist = false → g.isReset = false →
        g.isZoomIn = true → g.isZoomOut = false →
        (advanceFrame rotXOff scaleMin g s).targetScale = min 3 (s.targetScale + 0.02)) ∧
    (∀ (rotXOff scaleMin : ℚ) (g : GestureState) (s : ModelState),
        s.isFrozen = false → g.isFist = false → g.isReset = false →
        g.isZoomIn = false → g.isZoomOut = true →
        (advanceFrame rotXOff scaleMin g s).targetScale =
          max scaleMin (s.targetScale - 0.02)) ∧
    (∀ (rotXOff scaleMin : ℚ) (g : GestureState) (s : ModelState),
        g.isReset = true → g.isZoomIn = false → g.isZoomOut = false →
        (advanceFrame rotXOff scaleMin g s).targetScale = 1) ∧
    (∀ (rotXOff scaleMin : ℚ) (g : GestureState) (s : ModelState),
        g.isReset = false → g.isZoomIn = false → g.isZoomOut = false →
        (advanceFrame rotXOff scaleMin g s).targetScale = s.targetScale) := by
  refine ⟨?_, ?_, ?_, ?_, ?_⟩
  · intro rotXOff scaleMin g s hmin hl hr
    have hm1 : scaleMin ≤ 1 := by rcases hmin with h | h <;> rw [h] <;> norm_num
    have hm3 : scaleMin ≤ 3 := by linarith
    rw [advanceFrame_targetScale]
    obtain ⟨a, b⟩ := resetFreeze_targetScale_bounds scaleMin g s hm1 hl hr
    exact applyAccumulators_targetScale_bounds scaleMin g _ hm3 a b
  · intro rotXOff scaleMin g s hnf hf hrs hzi hzo
    have hfz : (applyFreeze g s).isFrozen = false := applyFreeze_no_freeze g s hf hnf
    rw [advanceFrame_targetScale, applyReset_of_false _ _ hrs,
      applyAccumulators_of_active _ _ _ hfz, applyZoomOut_of_false _ _ _ hzo,
      applyZoomIn_of_true _ _ hzi]
    simp only [applyPositionAccum_targetScale, applyRotationAccum_targetScale,
      applyFreeze_targetScale]
  · intro rotXOff scaleMin g s hnf hf hrs hzi hzo
    have hfz : (applyFreeze g s).isFrozen = false := applyFreeze_no_freeze g s hf hnf
    rw [advanceFrame_targetScale, applyReset_of_false _ _ hrs,
      applyAccumulators_of_active _ _ _ hfz, applyZoomOut_of_true _ _ _ hzo,
      applyZoomIn_of_false _ _ hzi]
    simp only [applyPositionAccum_targetScale, applyRotationAccum_targetScale,
      applyFreeze_targetScale]
  · intro rotXOff scaleMin g s hrs hzi hzo
    rw [advanceFrame_targetScale, applyReset_of_true _ _ hrs,
      applyAccumulators_of_active _ _ _ rfl, applyZoomOut_of_false _ _ _ hzo,
      applyZoomIn_of_false _ _ hzi]
    simp only [applyPositionAccum_targetScale, applyRotationAccum_targetScale]
  · intro rotXOff scaleMin g s hrs hzi hzo
    rw [advanceFrame_targetScale, applyReset_of_false _ _ hrs]
    cases hfz : (applyFreeze g s).isFrozen with
    | true => rw [applyAccumulators_of_frozen _ _ _ hfz, applyFreeze_targetScale]
    | false =>
        rw [applyAccumulators_of_active _ _ _ hfz, applyZoomOut_of_false _ _ _ hzo,
          applyZoomIn_of_false _ _ hzi, applyPositionAccum_targetScale,
          applyRotationAccum_targetScale, applyFreeze_targetScale]

/-- C10 witness: the invariant and the zoom-in equation applied to a
zoom-in frame from the neutral state with the solar-system floor 0.2. -/
theorem targetScale_range_invariant_witness :
    ((0.2 : ℚ) ≤ (advanceFrame 0.2 0.2 gZoomInOnly sampleState).targetScale ∧
     (advanceFrame 0.2 0.2 gZoomInOnly sampleState).targetScale ≤ 3) ∧
    (advanceFrame 0.2 0.2 gZoomInOnly sampleState).targetScale =
      min 3 (sampleState.targetScale + 0.02) :=
  ⟨targetScale_range_invariant.1 0.2 0.2 gZoomInOnly sampleState (Or.inl rfl)
      (by norm_num [sampleState]) (by norm_num [sampleState]),
   targetScale_range_invariant.2.1 0.2 0.2 gZoomInOnly sampleState rfl rfl rfl rfl rfl⟩

end Gestupp
